import Mathlib

/-!
Verification of the GPU render-core of the `project_peril` repository.

The development shallowly embeds the relevant parts of `src/main.rs` and
`src/renderer/mainpass.rs`:

* the fixed-timestep frame-scheduler loop of `main` (durations are modelled
  in integer milliseconds; `std::time::Duration` is a non-negative integer
  quantity, so wall-clock frame times are `Int`s constrained to be `≥ 0`);
* the Vulkan API calls performed by `MainPass::begin_frame`,
  `MainPass::end_frame` and `impl Drop for MainPass`, as traces of events
  (fallible device calls are given an outcome parameter, and a Rust
  `expect` panic is an `Except.error` carrying the panic message);
* the pure `vk::*CreateInfo` data built by `MainPass::create_renderpass`
  and `MainPass::create_pipeline` (render-pass attachments, subpasses and
  vertex-input layout);
* the outer main loop of `main` as a per-iteration event trace driven by
  the sequence of close signals delivered by `poll_events`.
-/

set_option autoImplicit false

namespace ProjectPeril

/-! ### Frame scheduler (src/main.rs lines 83-101) -/

/-- Fixed simulation step, `Duration::from_millis(17)` (main.rs line 83),
in milliseconds. -/
def delta_time : Int := 17

/-- The inner `while accumulator >= delta_time` loop (main.rs lines 96-101).
Given the accumulator and elapsed-time values, repeatedly calls
`scene.update()` while subtracting `delta_time` from the accumulator and
adding it to the elapsed time.  Returns the final accumulator, the final
elapsed time, and the number of `scene.update()` calls made (one per drained
fixed step). -/
def drain (accumulator elapsed_time : Int) : Int × Int × Nat :=
  if h : delta_time ≤ accumulator then
    let r := drain (accumulator - delta_time) (elapsed_time + delta_time)
    (r.1, r.2.1, r.2.2 + 1)
  else
    (accumulator, elapsed_time, 0)
termination_by accumulator.toNat
decreasing_by
  simp only [delta_time] at *
  omega

/-- The outer `while running` loop of main.rs lines 88-101, restricted to its
time bookkeeping: each iteration measures a wall-clock `frame_time`, adds it
to the accumulator, and drains the accumulator in fixed steps.  The input
list supplies the measured frame times of the successive iterations.
Returns the final accumulator, the final elapsed time, and the per-iteration
counts of simulation steps. -/
def main_loop_sched : Int → Int → List Int → Int × Int × List Nat
  | accumulator, _elapsed_time, [] => (accumulator, _elapsed_time, [])
  | accumulator, elapsed_time, frame_time :: rest =>
    let r := drain (accumulator + frame_time) elapsed_time
    let rr := main_loop_sched r.1 r.2.1 rest
    (rr.1, rr.2.1, r.2.2 :: rr.2.2)

theorem drain_spec : ∀ (n : Nat) (acc el : Int), acc.toNat = n → 0 ≤ acc →
    drain acc el = (acc % 17, el + 17 * (acc / 17), (acc / 17).toNat) := by
  intro n
  induction n using Nat.strong_induction_on with
  | _ n ih =>
    intro acc el hn hpos
    unfold drain
    simp only [delta_time]
    split
    · next h =>
      simp only [ih (acc - 17).toNat (by omega) (acc - 17) (el + 17) rfl (by omega),
        Prod.mk.injEq]
      refine ⟨by omega, by omega, by omega⟩
    · next h =>
      simp only [Prod.mk.injEq]
      refine ⟨by omega, by omega, by omega⟩

/-- Invariant of the scheduler loop: starting from a non-negative
accumulator, the final accumulator is non-negative, accumulator plus
17 ms times the total number of steps equals the initial accumulator
plus all frame time added, elapsed time advances by exactly 17 ms per
step, and after any non-empty run the accumulator is below one step. -/
theorem main_loop_sched_invariant :
    ∀ (frames : List Int) (acc el : Int), 0 ≤ acc → (∀ f ∈ frames, 0 ≤ f) →
    0 ≤ (main_loop_sched acc el frames).1 ∧
    (main_loop_sched acc el frames).1
        + 17 * ((main_loop_sched acc el frames).2.2.sum : Int)
      = acc + frames.sum ∧
    (main_loop_sched acc el frames).2.1
      = el + 17 * ((main_loop_sched acc el frames).2.2.sum : Int) ∧
    (frames ≠ [] → (main_loop_sched acc el frames).1 < 17) := by
  intro frames
  induction frames with
  | nil =>
    intro acc el hacc _
    simp only [main_loop_sched, List.sum_nil, Nat.cast_zero]
    refine ⟨hacc, by omega, by omega, by simp⟩
  | cons f rest ih =>
    intro acc el hacc hmem
    have hf : 0 ≤ f := hmem f (List.mem_cons_self f rest)
    have hdrain := drain_spec (acc + f).toNat (acc + f) el rfl (by omega)
    obtain ⟨h1, h2, h3, h4⟩ := ih ((acc + f) % 17) (el + 17 * ((acc + f) / 17))
      (by omega) (fun g hg => hmem g (List.mem_cons_of_mem f hg))
    simp only [main_loop_sched, hdrain, List.sum_cons, Nat.cast_add]
    refine ⟨h1, by omega, by omega, ?_⟩
    intro _
    rcases rest with _ | ⟨g, gs⟩
    · simp only [main_loop_sched]
      omega
    · exact h4 (by simp)

/-! ### Vulkan data model (src/renderer/mainpass.rs)

Handles are opaque; the embedding records, for every device call the Rust
code makes, an event carrying the arguments the claims talk about.  Bitmask
constants carry their Vulkan numeric values as used by the `ash` crate. -/

inductive Format where
  | R8g8b8a8Unorm
  | D32Sfloat
  | R32g32b32Sfloat
  | R32g32Sfloat
  deriving DecidableEq

inductive ImageLayout where
  | ColorAttachmentOptimal
  | DepthStencilAttachmentOptimal
  deriving DecidableEq

inductive AttachmentLoadOp where
  | Clear
  | Load
  | DontCare
  deriving DecidableEq

inductive AttachmentStoreOp where
  | Store
  | DontCare
  deriving DecidableEq

/-- vk::ACCESS_COLOR_ATTACHMENT_READ_BIT -/
def ACCESS_COLOR_ATTACHMENT_READ_BIT : Nat := 128

/-- vk::ACCESS_COLOR_ATTACHMENT_WRITE_BIT -/
def ACCESS_COLOR_ATTACHMENT_WRITE_BIT : Nat := 256

/-- vk::PIPELINE_STAGE_COLOR_ATTACHMENT_OUTPUT_BIT -/
def PIPELINE_STAGE_COLOR_ATTACHMENT_OUTPUT_BIT : Nat := 1024

/-- vk::COMMAND_BUFFER_USAGE_SIMULTANEOUS_USE_BIT -/
def COMMAND_BUFFER_USAGE_SIMULTANEOUS_USE_BIT : Nat := 4

/-- The two textures owned by a `MainPass` (fields `render_image` and
`depth_image`). -/
inductive ImageSel where
  | renderImage
  | depthImage
  deriving DecidableEq

/-- The device-memory allocations a `MainPass` frees in its `Drop` impl. -/
inductive MemSel where
  | viewMatrixUbMem
  | textureMem (img : ImageSel)
  deriving DecidableEq

/-- The fields of `vk::SubmitInfo` relevant to the claims
(mainpass.rs lines 668-678). -/
structure SubmitInfo where
  wait_semaphore_count : Nat
  command_buffer_count : Nat
  signal_semaphore_count : Nat
  deriving DecidableEq

structure ClearDepthStencilValue where
  depth : Rat
  stencil : Nat
  deriving DecidableEq

inductive ClearValue where
  | color (r g b a : Rat)
  | depthStencil (v : ClearDepthStencilValue)
  deriving DecidableEq

/-- One Vulkan call performed by `MainPass::begin_frame` or
`MainPass::end_frame`, with the arguments the claims are about. -/
inductive ApiCall where
  | beginCommandBuffer (flags : Nat)
  | transitionTexture (image : ImageSel) (access : Nat) (layout : ImageLayout) (stage : Nat)
  | updateDescriptorSets (dst_binding : Nat)
  | cmdBeginRenderPass (clear_values : List ClearValue)
  | cmdBindDescriptorSets (first_set : Nat)
  | cmdBindPipeline
  | cmdSetViewport
  | cmdSetScissor
  | cmdEndRenderPass
  | endCommandBuffer
  | queueSubmit (info : SubmitInfo) (fence : Option Nat)
  deriving DecidableEq

/-- Outcomes of the three fallible device calls made while recording and
submitting a frame.  `true` models `Ok(..)`, `false` an error `Result`,
which the Rust code turns into a panic via `.expect(..)`. -/
structure DeviceOutcomes where
  begin_command_buffer_ok : Bool
  end_command_buffer_ok : Bool
  queue_submit_ok : Bool
  deriving DecidableEq

/-- A frame on which every device call succeeds. -/
def dev_all_ok : DeviceOutcomes :=
  { begin_command_buffer_ok := true, end_command_buffer_ok := true,
    queue_submit_ok := true }

/-- A frame on which `begin_command_buffer` fails. -/
def dev_begin_fails : DeviceOutcomes :=
  { begin_command_buffer_ok := false, end_command_buffer_ok := true,
    queue_submit_ok := true }

/-- A frame on which `end_command_buffer` fails. -/
def dev_end_fails : DeviceOutcomes :=
  { begin_command_buffer_ok := true, end_command_buffer_ok := false,
    queue_submit_ok := true }

/-- A frame on which `queue_submit` fails. -/
def dev_submit_fails : DeviceOutcomes :=
  { begin_command_buffer_ok := true, end_command_buffer_ok := true,
    queue_submit_ok := false }

/-- The sequence of device calls `MainPass::begin_frame` performs when the
initial `begin_command_buffer` succeeds (mainpass.rs lines 568-654), in
source order. -/
def begin_frame_calls : List ApiCall :=
  [ -- line 579: rs.device.begin_command_buffer(cmd_buf, &cmd_buf_begin_info),
   -- flags = COMMAND_BUFFER_USAGE_SIMULTANEOUS_USE_BIT (line 575)
   ApiCall.beginCommandBuffer COMMAND_BUFFER_USAGE_SIMULTANEOUS_USE_BIT,
   -- lines 583-589: rs.transition_texture(&mut self.render_image, ..)
   ApiCall.transitionTexture ImageSel.renderImage
     (ACCESS_COLOR_ATTACHMENT_READ_BIT ||| ACCESS_COLOR_ATTACHMENT_WRITE_BIT)
     ImageLayout.ColorAttachmentOptimal
     PIPELINE_STAGE_COLOR_ATTACHMENT_OUTPUT_BIT,
   -- line 632: rs.device.update_descriptor_sets(&write_desc_sets, &[]),
   -- writing dst_binding 0 of the view-matrix descriptor set (lines 615-628)
   ApiCall.updateDescriptorSets 0,
   -- line 635: rs.device.cmd_begin_render_pass, clear values from lines 592-598
   ApiCall.cmdBeginRenderPass
     [ClearValue.color 0 1 0 1,
      ClearValue.depthStencil { depth := 1, stencil := 0 }],
   -- lines 637-644: rs.device.cmd_bind_descriptor_sets(.., first_set = 1, ..)
   ApiCall.cmdBindDescriptorSets 1,
   -- line 647: rs.device.cmd_bind_pipeline
   ApiCall.cmdBindPipeline,
   -- line 649: rs.device.cmd_set_viewport
   ApiCall.cmdSetViewport,
   -- line 650: rs.device.cmd_set_scissor
   ApiCall.cmdSetScissor]

/-- `MainPass::begin_frame` (mainpass.rs lines 568-654): takes the stored
command-buffer handle; if `begin_command_buffer` fails, the `.expect`
panics with "Begin commandbuffer" before any further call; otherwise it
performs `begin_frame_calls` and returns the command-buffer handle. -/
def begin_frame (commandbuffer : Nat) (d : DeviceOutcomes) :
    Except String (List ApiCall × Nat) :=
  if d.begin_command_buffer_ok then Except.ok (begin_frame_calls, commandbuffer)
  else Except.error "Begin commandbuffer"

/-- The order of operations C2 states for `begin_frame` (spec §4.3): the
color-image transition first, command-buffer recording begun second.
Written from the spec sentence, to be compared against the code's order. -/
def begin_frame_calls_as_specified : List ApiCall :=
  [ApiCall.transitionTexture ImageSel.renderImage
     (ACCESS_COLOR_ATTACHMENT_READ_BIT ||| ACCESS_COLOR_ATTACHMENT_WRITE_BIT)
     ImageLayout.ColorAttachmentOptimal
     PIPELINE_STAGE_COLOR_ATTACHMENT_OUTPUT_BIT,
   ApiCall.beginCommandBuffer COMMAND_BUFFER_USAGE_SIMULTANEOUS_USE_BIT,
   ApiCall.updateDescriptorSets 0,
   ApiCall.cmdBeginRenderPass
     [ClearValue.color 0 1 0 1,
      ClearValue.depthStencil { depth := 1, stencil := 0 }],
   ApiCall.cmdBindDescriptorSets 1,
   ApiCall.cmdBindPipeline,
   ApiCall.cmdSetViewport,
   ApiCall.cmdSetScissor]

/-- The `vk::SubmitInfo` built by `MainPass::end_frame`
(mainpass.rs lines 668-678): zero wait semaphores, one command buffer,
zero signal semaphores. -/
def submit_info : SubmitInfo :=
  { wait_semaphore_count := 0, command_buffer_count := 1, signal_semaphore_count := 0 }

/-- `MainPass::end_frame` (mainpass.rs lines 657-682): ends the render pass,
ends command-buffer recording (panicking with "End commandbuffer" on
failure), then submits one command buffer with `submit_info` and a null
fence (`vk::Fence::null()`, modelled as `none`), panicking with
"queue submit failed." on failure. -/
def end_frame (d : DeviceOutcomes) : Except String (List ApiCall) :=
  if d.end_command_buffer_ok then
    if d.queue_submit_ok then
      Except.ok [ApiCall.cmdEndRenderPass, ApiCall.endCommandBuffer,
        ApiCall.queueSubmit submit_info none]
    else Except.error "queue submit failed."
  else Except.error "End commandbuffer"

/-- One resource-destruction call performed by `impl Drop for MainPass`. -/
inductive DestroyCall where
  | deviceWaitIdle
  | destroyBuffer
  | freeMemory (mem : MemSel)
  | destroySampler (img : ImageSel)
  | destroyImageView (img : ImageSel)
  | destroyImage (img : ImageSel)
  | destroyFramebuffer
  | destroyPipeline
  | destroyPipelineLayout
  | destroyDescriptorSetLayout (idx : Nat)
  | destroyDescriptorPool
  | destroyRenderPass
  deriving DecidableEq

/-- The number of descriptor-set layouts a `MainPass` holds:
`create_pipeline` creates exactly two (mainpass.rs lines 177-183). -/
def main_pass_descriptor_set_layout_count : Nat := 2

/-- The destruction sequence of `impl Drop for MainPass`
(mainpass.rs lines 692-722), in source order. -/
def main_pass_drop_calls (num_descriptor_set_layouts : Nat) : List DestroyCall :=
  [ -- line 694: self.device.device_wait_idle().unwrap()
   DestroyCall.deviceWaitIdle,
   -- lines 696-697: uniform buffer and its memory
   DestroyCall.destroyBuffer,
   DestroyCall.freeMemory MemSel.viewMatrixUbMem,
   -- lines 699-702: depth image (sampler, view, image, memory)
   DestroyCall.destroySampler ImageSel.depthImage,
   DestroyCall.destroyImageView ImageSel.depthImage,
   DestroyCall.destroyImage ImageSel.depthImage,
   DestroyCall.freeMemory (MemSel.textureMem ImageSel.depthImage),
   -- lines 704-707: color render image (sampler, view, image, memory)
   DestroyCall.destroySampler ImageSel.renderImage,
   DestroyCall.destroyImageView ImageSel.renderImage,
   DestroyCall.destroyImage ImageSel.renderImage,
   DestroyCall.freeMemory (MemSel.textureMem ImageSel.renderImage),
   -- line 709: framebuffer
   DestroyCall.destroyFramebuffer,
   -- lines 711-712: pipeline, then pipeline layout
   DestroyCall.destroyPipeline,
   DestroyCall.destroyPipelineLayout]
  -- lines 714-717: each descriptor-set layout, in order
  ++ (List.range num_descriptor_set_layouts).map DestroyCall.destroyDescriptorSetLayout
  -- lines 719-721: descriptor pool, then render pass
  ++ [DestroyCall.destroyDescriptorPool, DestroyCall.destroyRenderPass]

/-- `impl Drop for MainPass` (mainpass.rs lines 687-723): first
`debug_assert!(1 < Rc::strong_count(&self.device))` (line 690); if the
strong count is not above 1 the assertion fails before any destruction
call, otherwise the destruction sequence runs. -/
def main_pass_drop (device_strong_count num_descriptor_set_layouts : Nat) :
    Except String (List DestroyCall) :=
  if 1 < device_strong_count then
    Except.ok (main_pass_drop_calls num_descriptor_set_layouts)
  else
    Except.error "assertion failed: 1 < Rc::strong_count(&self.device)"

/-! ### Render pass and pipeline creation data (mainpass.rs lines 43-436) -/

structure AttachmentDescription where
  format : Format
  samples : Nat
  load_op : AttachmentLoadOp
  store_op : AttachmentStoreOp
  stencil_load_op : AttachmentLoadOp
  stencil_store_op : AttachmentStoreOp
  initial_layout : ImageLayout
  final_layout : ImageLayout
  deriving DecidableEq

structure AttachmentReference where
  attachment : Nat
  layout : ImageLayout
  deriving DecidableEq

structure SubpassDescription where
  color_attachments : List AttachmentReference
  depth_stencil_attachment : Option AttachmentReference
  input_attachments : List AttachmentReference
  preserve_attachments : List Nat
  deriving DecidableEq

structure RenderPassCreateInfo where
  attachments : List AttachmentDescription
  subpasses : List SubpassDescription
  dependency_count : Nat
  deriving DecidableEq

/-- `MainPass::create_renderpass` (mainpass.rs lines 43-107): the
`vk::RenderPassCreateInfo` it hands to `create_render_pass`, as data. -/
def create_renderpass (render_format : Format) : RenderPassCreateInfo :=
  { attachments :=
      [ -- lines 47-57: color attachment
       { format := render_format, samples := 1,
         load_op := AttachmentLoadOp.Clear, store_op := AttachmentStoreOp.Store,
         stencil_load_op := AttachmentLoadOp.DontCare,
         stencil_store_op := AttachmentStoreOp.DontCare,
         initial_layout := ImageLayout.ColorAttachmentOptimal,
         final_layout := ImageLayout.ColorAttachmentOptimal },
       -- lines 58-68: depth attachment
       { format := Format.D32Sfloat, samples := 1,
         load_op := AttachmentLoadOp.Clear, store_op := AttachmentStoreOp.DontCare,
         stencil_load_op := AttachmentLoadOp.DontCare,
         stencil_store_op := AttachmentStoreOp.DontCare,
         initial_layout := ImageLayout.DepthStencilAttachmentOptimal,
         final_layout := ImageLayout.DepthStencilAttachmentOptimal }],
    subpasses :=
      [ -- lines 70-89: one subpass, color ref -> attachment 0, depth ref -> 1
       { color_attachments := [{ attachment := 0, layout := ImageLayout.ColorAttachmentOptimal }],
         depth_stencil_attachment :=
           some { attachment := 1, layout := ImageLayout.DepthStencilAttachmentOptimal },
         input_attachments := [], preserve_attachments := [] }],
    dependency_count := 0 }

inductive VertexInputRate where
  | Vertex
  | Instance
  deriving DecidableEq

structure VertexInputBindingDescription where
  binding : Nat
  stride : Nat
  input_rate : VertexInputRate
  deriving DecidableEq

structure VertexInputAttributeDescription where
  binding : Nat
  location : Nat
  format : Format
  offset : Nat
  deriving DecidableEq

/-- `std::mem::size_of::<f32>()`. -/
def size_of_f32 : Nat := 4

/-- Modelled from the spec: the `Vertex` struct (`object::draw::Vertex`,
whose defining file src/object/draw.rs is not among the sources given)
consists of 14 interleaved `f32` fields — position vec3, normal vec3,
tangent vec3, bitangent vec3, texcoord vec2 — so `size_of::<Vertex>()`
equals 14 * 4 bytes (spec §6, Vertex format). -/
def size_of_Vertex : Nat := 14 * size_of_f32

/-- The single vertex-input binding of `MainPass::create_pipeline`
(mainpass.rs lines 232-236 and 273). -/
def vertex_input_binding_descriptions : List VertexInputBindingDescription :=
  [{ binding := 0, stride := size_of_Vertex, input_rate := VertexInputRate.Vertex }]

/-- The vertex-input attributes of `MainPass::create_pipeline`
(mainpass.rs lines 238-280), in location order. -/
def vertex_input_attribute_descriptions : List VertexInputAttributeDescription :=
  [{ binding := 0, location := 0, format := Format.R32g32b32Sfloat, offset := 0 },
   { binding := 0, location := 1, format := Format.R32g32b32Sfloat, offset := 3 * size_of_f32 },
   { binding := 0, location := 2, format := Format.R32g32b32Sfloat, offset := 6 * size_of_f32 },
   { binding := 0, location := 3, format := Format.R32g32b32Sfloat, offset := 9 * size_of_f32 },
   { binding := 0, location := 4, format := Format.R32g32Sfloat, offset := 12 * size_of_f32 }]

/-! ### Outer main loop (src/main.rs lines 88-136) -/

/-- The observable per-iteration actions of the outer `while running` loop,
after the simulation steps of that iteration have been drained. -/
inductive LoopEvent where
  | beginFrame
  | sceneDraw
  | endFrame
  | presentImage
  | pollEvents
  deriving DecidableEq

/-- The body of one outer-loop iteration (main.rs lines 107-135):
record and submit the frame, present it, then poll window events. -/
def loop_iteration_events : List LoopEvent :=
  [LoopEvent.beginFrame, LoopEvent.sceneDraw, LoopEvent.endFrame,
   LoopEvent.presentImage, LoopEvent.pollEvents]

/-- The outer `while running` loop (main.rs lines 88-136), driven by the
close signals the successive `poll_events` calls deliver (`true` = a
`WindowEvent::Closed` arrived during that poll).  `running` starts `true`
(line 80), so the body runs before the first poll.  Returns the list of
per-iteration event traces together with whether the loop exited
(`false` means the supplied signal list ran out with the loop still
running). -/
def main_loop_events : List Bool → List (List LoopEvent) × Bool
  | [] => ([], false)
  | close :: rest =>
    if close then ([loop_iteration_events], true)
    else
      let r := main_loop_events rest
      (loop_iteration_events :: r.1, r.2)

/-- C1: for every finite sequence of non-negative wall-clock frame times fed
to the frame-scheduler loop, the accumulator is never negative, the total
number of simulation steps (one `scene.update()` call per drained fixed
step, counted per iteration by the returned list) equals
`floor(total_elapsed / delta_time)`, and the remainder below one step is
preserved in the accumulator; in particular frame times 20 ms, 20 ms, 5 ms
yield per-iteration step counts [1, 1, 0] and a final accumulator of 11 ms
(with 34 ms of elapsed simulated time). -/
theorem c1_frame_scheduler_accumulator :
    (∀ frames : List Int, (∀ f ∈ frames, 0 ≤ f) →
      0 ≤ (main_loop_sched 0 0 frames).1 ∧
      ((main_loop_sched 0 0 frames).2.2.sum : Int) = frames.sum / delta_time ∧
      (main_loop_sched 0 0 frames).1 = frames.sum % delta_time) ∧
    main_loop_sched 0 0 [20, 20, 5] = (11, 34, [1, 1, 0]) := by
  constructor
  · intro frames hmem
    obtain ⟨h1, h2, h3, h4⟩ := main_loop_sched_invariant frames 0 0 le_rfl hmem
    simp only [delta_time]
    rcases frames with _ | ⟨f, fs⟩
    · simp only [main_loop_sched, List.sum_nil]
      refine ⟨le_rfl, by decide, by decide⟩
    · have h5 := h4 (by simp)
      exact ⟨h1, by omega, by omega⟩
  · have e1 : drain ((0 : Int) + 20) 0 = (3, 17, 1) := by
      rw [drain_spec ((0 : Int) + 20).toNat ((0 : Int) + 20) 0 rfl (by norm_num)]
      decide
    have e2 : drain ((3 : Int) + 20) 17 = (6, 34, 1) := by
      rw [drain_spec ((3 : Int) + 20).toNat ((3 : Int) + 20) 17 rfl (by norm_num)]
      decide
    have e3 : drain ((6 : Int) + 5) 34 = (11, 34, 0) := by
      rw [drain_spec ((6 : Int) + 5).toNat ((6 : Int) + 5) 34 rfl (by norm_num)]
      decide
    simp only [main_loop_sched, e1, e2, e3]

/-- Witness for C1 at the concrete frame-time sequence [20, 20, 5]. -/
theorem c1_frame_scheduler_accumulator_witness :
    0 ≤ (main_loop_sched 0 0 [20, 20, 5]).1 ∧
    ((main_loop_sched 0 0 [20, 20, 5]).2.2.sum : Int)
      = ([20, 20, 5] : List Int).sum / delta_time ∧
    (main_loop_sched 0 0 [20, 20, 5]).1 = ([20, 20, 5] : List Int).sum % delta_time :=
  c1_frame_scheduler_accumulator.1 [20, 20, 5] (by decide)

/-- C9: invariant of the frame-scheduler loop: after the accumulator has been
drained in any iteration (i.e. after any prefix of the frame-time sequence
has been processed), `elapsed_time + accumulator` equals the sum of all
wall-clock frame times measured so far, and `elapsed_time` is an exact
multiple of the 17 ms fixed step, equal to the total number of simulation
steps taken times 17 ms. -/
theorem c9_elapsed_accumulator_invariant :
    ∀ frames : List Int, (∀ f ∈ frames, 0 ≤ f) → ∀ k : Nat,
    (main_loop_sched 0 0 (frames.take k)).2.1 + (main_loop_sched 0 0 (frames.take k)).1
      = (frames.take k).sum ∧
    (main_loop_sched 0 0 (frames.take k)).2.1
      = delta_time * ((main_loop_sched 0 0 (frames.take k)).2.2.sum : Int) := by
  intro frames hmem k
  obtain ⟨h1, h2, h3, h4⟩ := main_loop_sched_invariant (frames.take k) 0 0 le_rfl
    (fun f hf => hmem f (List.mem_of_mem_take hf))
  simp only [delta_time]
  exact ⟨by omega, by omega⟩

/-- Witness for C9 at the frame-time sequence [20, 20, 5], prefix length 2. -/
theorem c9_elapsed_accumulator_invariant_witness :
    (main_loop_sched 0 0 (([20, 20, 5] : List Int).take 2)).2.1
        + (main_loop_sched 0 0 (([20, 20, 5] : List Int).take 2)).1
      = (([20, 20, 5] : List Int).take 2).sum ∧
    (main_loop_sched 0 0 (([20, 20, 5] : List Int).take 2)).2.1
      = delta_time
          * ((main_loop_sched 0 0 (([20, 20, 5] : List Int).take 2)).2.2.sum : Int) :=
  c9_elapsed_accumulator_invariant [20, 20, 5] (by decide) 2

/-- C2 counterexample: the claim's order of operations for `begin_frame`
(color-image transition first, command-buffer recording begun second) does
not match the code: even on a fully successful frame, the sequence of calls
`begin_frame` performs differs from the claimed sequence — recording is
begun first, and the transition barrier is recorded into the already-begun
command buffer. -/
theorem c2_begin_frame_order_counterexample :
    begin_frame 0 dev_all_ok = Except.ok (begin_frame_calls, 0) ∧
    begin_frame_calls ≠ begin_frame_calls_as_specified ∧
    begin_frame_calls.head? = some
      (ApiCall.beginCommandBuffer COMMAND_BUFFER_USAGE_SIMULTANEOUS_USE_BIT) := by
  refine ⟨rfl, by decide, rfl⟩

/-- C2 (amended): every call to `begin_frame` whose `begin_command_buffer`
device call succeeds performs, in this order: begins command-buffer
recording flagged for simultaneous reuse; transitions the color render
image into the color-attachment state (recording the barrier into the
just-begun command buffer); updates the view-matrix descriptor set to point
at the current uniform buffer; begins the render pass with clear values
including depth = 1.0; binds the view-matrix descriptor set at set index 1;
binds the pipeline; sets the dynamic viewport and scissor; and returns the
command buffer handle to the caller. -/
theorem c2_begin_frame_order (commandbuffer : Nat) (d : DeviceOutcomes)
    (h : d.begin_command_buffer_ok = true) :
    begin_frame commandbuffer d = Except.ok
      ([ApiCall.beginCommandBuffer COMMAND_BUFFER_USAGE_SIMULTANEOUS_USE_BIT,
        ApiCall.transitionTexture ImageSel.renderImage
          (ACCESS_COLOR_ATTACHMENT_READ_BIT ||| ACCESS_COLOR_ATTACHMENT_WRITE_BIT)
          ImageLayout.ColorAttachmentOptimal
          PIPELINE_STAGE_COLOR_ATTACHMENT_OUTPUT_BIT,
        ApiCall.updateDescriptorSets 0,
        ApiCall.cmdBeginRenderPass
          [ClearValue.color 0 1 0 1,
           ClearValue.depthStencil { depth := 1, stencil := 0 }],
        ApiCall.cmdBindDescriptorSets 1,
        ApiCall.cmdBindPipeline,
        ApiCall.cmdSetViewport,
        ApiCall.cmdSetScissor], commandbuffer) := by
  simp [begin_frame, h, begin_frame_calls]

/-- Witness for C2 (amended) at command buffer 0 with all device calls
succeeding. -/
theorem c2_begin_frame_order_witness :
    begin_frame 0 dev_all_ok
      = Except.ok
        ([ApiCall.beginCommandBuffer COMMAND_BUFFER_USAGE_SIMULTANEOUS_USE_BIT,
          ApiCall.transitionTexture ImageSel.renderImage
            (ACCESS_COLOR_ATTACHMENT_READ_BIT ||| ACCESS_COLOR_ATTACHMENT_WRITE_BIT)
            ImageLayout.ColorAttachmentOptimal
            PIPELINE_STAGE_COLOR_ATTACHMENT_OUTPUT_BIT,
          ApiCall.updateDescriptorSets 0,
          ApiCall.cmdBeginRenderPass
            [ClearValue.color 0 1 0 1,
             ClearValue.depthStencil { depth := 1, stencil := 0 }],
          ApiCall.cmdBindDescriptorSets 1,
          ApiCall.cmdBindPipeline,
          ApiCall.cmdSetViewport,
          ApiCall.cmdSetScissor], 0) :=
  c2_begin_frame_order 0 dev_all_ok rfl

/-- C3: dropping a `MainPass` while the device is still referenced
elsewhere first blocks until the device is idle, then releases resources
in exactly this order: the uniform buffer and its memory; the depth image
and then the color image (for each: sampler, view, image, memory); the
framebuffer; the pipeline and then its layout; each descriptor-set layout;
the descriptor pool; and finally the render pass. -/
theorem c3_drop_release_order (device_strong_count : Nat)
    (h : 1 < device_strong_count) :
    main_pass_drop device_strong_count main_pass_descriptor_set_layout_count
      = Except.ok
        [DestroyCall.deviceWaitIdle,
         DestroyCall.destroyBuffer,
         DestroyCall.freeMemory MemSel.viewMatrixUbMem,
         DestroyCall.destroySampler ImageSel.depthImage,
         DestroyCall.destroyImageView ImageSel.depthImage,
         DestroyCall.destroyImage ImageSel.depthImage,
         DestroyCall.freeMemory (MemSel.textureMem ImageSel.depthImage),
         DestroyCall.destroySampler ImageSel.renderImage,
         DestroyCall.destroyImageView ImageSel.renderImage,
         DestroyCall.destroyImage ImageSel.renderImage,
         DestroyCall.freeMemory (MemSel.textureMem ImageSel.renderImage),
         DestroyCall.destroyFramebuffer,
         DestroyCall.destroyPipeline,
         DestroyCall.destroyPipelineLayout,
         DestroyCall.destroyDescriptorSetLayout 0,
         DestroyCall.destroyDescriptorSetLayout 1,
         DestroyCall.destroyDescriptorPool,
         DestroyCall.destroyRenderPass] := by
  simp only [main_pass_drop, if_pos h]
  rfl

/-- Witness for C3 at device strong count 2. -/
theorem c3_drop_release_order_witness :
    main_pass_drop 2 main_pass_descriptor_set_layout_count
      = Except.ok
        [DestroyCall.deviceWaitIdle,
         DestroyCall.destroyBuffer,
         DestroyCall.freeMemory MemSel.viewMatrixUbMem,
         DestroyCall.destroySampler ImageSel.depthImage,
         DestroyCall.destroyImageView ImageSel.depthImage,
         DestroyCall.destroyImage ImageSel.depthImage,
         DestroyCall.freeMemory (MemSel.textureMem ImageSel.depthImage),
         DestroyCall.destroySampler ImageSel.renderImage,
         DestroyCall.destroyImageView ImageSel.renderImage,
         DestroyCall.destroyImage ImageSel.renderImage,
         DestroyCall.freeMemory (MemSel.textureMem ImageSel.renderImage),
         DestroyCall.destroyFramebuffer,
         DestroyCall.destroyPipeline,
         DestroyCall.destroyPipelineLayout,
         DestroyCall.destroyDescriptorSetLayout 0,
         DestroyCall.destroyDescriptorSetLayout 1,
         DestroyCall.destroyDescriptorPool,
         DestroyCall.destroyRenderPass] :=
  c3_drop_release_order 2 (by decide)

/-- C4: if a `MainPass` is dropped while holding the last strong reference
to the device (strong count at most 1), the drop fails the
`debug_assert!(1 < Rc::strong_count(&self.device))` assertion rather than
proceeding: no destruction call is made. -/
theorem c4_drop_asserts_device_refcount (device_strong_count : Nat)
    (h : device_strong_count ≤ 1) :
    main_pass_drop device_strong_count main_pass_descriptor_set_layout_count
      = Except.error "assertion failed: 1 < Rc::strong_count(&self.device)" := by
  simp only [main_pass_drop, if_neg (by omega : ¬ 1 < device_strong_count)]

/-- Witness for C4 at device strong count 1. -/
theorem c4_drop_asserts_device_refcount_witness :
    main_pass_drop 1 main_pass_descriptor_set_layout_count
      = Except.error "assertion failed: 1 < Rc::strong_count(&self.device)" :=
  c4_drop_asserts_device_refcount 1 (by decide)

/-- C5: if beginning the command buffer, ending the command buffer, or
submitting to the graphics queue fails during a frame, the corresponding
`.expect` panics with its descriptive message and the frame function
terminates with that panic; there is no retry and no continuation with
partial state for any of these three frame operations. -/
theorem c5_frame_operation_failures_panic :
    (∀ (commandbuffer : Nat) (d : DeviceOutcomes),
      d.begin_command_buffer_ok = false →
      begin_frame commandbuffer d = Except.error "Begin commandbuffer") ∧
    (∀ d : DeviceOutcomes, d.end_command_buffer_ok = false →
      end_frame d = Except.error "End commandbuffer") ∧
    (∀ d : DeviceOutcomes, d.end_command_buffer_ok = true →
      d.queue_submit_ok = false →
      end_frame d = Except.error "queue submit failed.") := by
  refine ⟨?_, ?_, ?_⟩
  · intro commandbuffer d h
    simp [begin_frame, h]
  · intro d h
    simp [end_frame, h]
  · intro d h1 h2
    simp [end_frame, h1, h2]

/-- Witness for C5 at the three concrete failing device outcomes. -/
theorem c5_frame_operation_failures_panic_witness :
    begin_frame 0 dev_begin_fails = Except.error "Begin commandbuffer" ∧
    end_frame dev_end_fails = Except.error "End commandbuffer" ∧
    end_frame dev_submit_fails = Except.error "queue submit failed." :=
  ⟨c5_frame_operation_failures_panic.1 0 dev_begin_fails rfl,
   c5_frame_operation_failures_panic.2.1 dev_end_fails rfl,
   c5_frame_operation_failures_panic.2.2 dev_submit_fails rfl rfl⟩

/-- C6: every successful call to `end_frame` ends the render pass, ends
command-buffer recording, and submits exactly one command buffer to the
graphics queue with zero wait semaphores, zero signal semaphores and a
null fence — no per-frame synchronization primitive bounds CPU/GPU
overlap. -/
theorem c6_end_frame_submit (d : DeviceOutcomes)
    (h1 : d.end_command_buffer_ok = true) (h2 : d.queue_submit_ok = true) :
    end_frame d = Except.ok
      [ApiCall.cmdEndRenderPass,
       ApiCall.endCommandBuffer,
       ApiCall.queueSubmit submit_info none] ∧
    submit_info.wait_semaphore_count = 0 ∧
    submit_info.signal_semaphore_count = 0 ∧
    submit_info.command_buffer_count = 1 := by
  refine ⟨by simp [end_frame, h1, h2], rfl, rfl, rfl⟩

/-- Witness for C6 with both device calls succeeding. -/
theorem c6_end_frame_submit_witness :
    end_frame dev_all_ok
      = Except.ok
        [ApiCall.cmdEndRenderPass,
         ApiCall.endCommandBuffer,
         ApiCall.queueSubmit submit_info none] ∧
    submit_info.wait_semaphore_count = 0 ∧
    submit_info.signal_semaphore_count = 0 ∧
    submit_info.command_buffer_count = 1 :=
  c6_end_frame_submit dev_all_ok rfl rfl

/-- C7: the render pass built by `create_renderpass` (called with the
render format `R8g8b8a8Unorm` used by `MainPass::init`) has exactly two
attachments — a color attachment with load op Clear and store op Store, and
a depth attachment with load op Clear and store op DontCare — and exactly
one subpass, whose color reference is attachment 0 and whose depth-stencil
reference is attachment 1. -/
theorem c7_renderpass_attachments :
    (create_renderpass Format.R8g8b8a8Unorm).attachments.length = 2 ∧
    ((create_renderpass Format.R8g8b8a8Unorm).attachments.map
        (fun a => (a.load_op, a.store_op)))
      = [(AttachmentLoadOp.Clear, AttachmentStoreOp.Store),
         (AttachmentLoadOp.Clear, AttachmentStoreOp.DontCare)] ∧
    (create_renderpass Format.R8g8b8a8Unorm).subpasses.length = 1 ∧
    ((create_renderpass Format.R8g8b8a8Unorm).subpasses.map
        (fun s => (s.color_attachments.map (fun r => r.attachment),
                   Option.map (fun r => r.attachment) s.depth_stencil_attachment)))
      = [([0], some 1)] := by
  refine ⟨rfl, rfl, rfl, rfl⟩

/-- C8: the pipeline's vertex input is a single interleaved binding of
stride 14 * 4 = 56 bytes with exactly five attributes, at byte offsets 0
(position, vec3 float), 12 (normal, vec3 float), 24 (tangent, vec3 float),
36 (bitangent, vec3 float) and 48 (texcoord, vec2 float). -/
theorem c8_vertex_input_layout :
    vertex_input_binding_descriptions
      = [{ binding := 0, stride := 56, input_rate := VertexInputRate.Vertex }] ∧
    vertex_input_attribute_descriptions.length = 5 ∧
    (vertex_input_attribute_descriptions.map (fun a => (a.binding, a.offset, a.format)))
      = [(0, 0, Format.R32g32b32Sfloat),
         (0, 12, Format.R32g32b32Sfloat),
         (0, 24, Format.R32g32b32Sfloat),
         (0, 36, Format.R32g32b32Sfloat),
         (0, 48, Format.R32g32Sfloat)] := by
  refine ⟨rfl, rfl, rfl⟩

/-- C10: every outer-loop iteration performs the full body — record the
frame, submit it, present it — and polls the close event exactly once, as
the last action of the iteration; consequently a close signal never skips
or interrupts a frame in progress, and whenever the loop exits at least one
full frame has been rendered and presented. -/
theorem c10_close_polled_after_frame :
    ∀ signals : List Bool,
    (∀ it ∈ (main_loop_events signals).1, it = loop_iteration_events) ∧
    loop_iteration_events.count LoopEvent.pollEvents = 1 ∧
    loop_iteration_events
      = [LoopEvent.beginFrame, LoopEvent.sceneDraw, LoopEvent.endFrame,
         LoopEvent.presentImage, LoopEvent.pollEvents] ∧
    ((main_loop_events signals).2 = true → 1 ≤ (main_loop_events signals).1.length) := by
  intro signals
  refine ⟨?_, rfl, rfl, ?_⟩
  · induction signals with
    | nil => intro it hit; simp [main_loop_events] at hit
    | cons c rest ih =>
      intro it hit
      by_cases hc : c = true
      · simp [main_loop_events, hc] at hit
        exact hit
      · simp only [Bool.not_eq_true] at hc
        simp only [main_loop_events, hc, Bool.false_eq_true, if_false,
          List.mem_cons] at hit
        rcases hit with h | h
        · exact h
        · exact ih it h
  · induction signals with
    | nil => intro h; simp [main_loop_events] at h
    | cons c rest ih =>
      intro h
      by_cases hc : c = true
      · simp [main_loop_events, hc]
      · simp only [Bool.not_eq_true] at hc
        simp [main_loop_events, hc]

/-- Witness for C10 at the signal sequence [true] (close delivered at the
first poll). -/
theorem c10_close_polled_after_frame_witness :
    loop_iteration_events = loop_iteration_events ∧
    1 ≤ (main_loop_events [true]).1.length :=
  ⟨(c10_close_polled_after_frame [true]).1 loop_iteration_events (by decide),
   (c10_close_polled_after_frame [true]).2.2.2 (by decide)⟩

end ProjectPeril
